import Mathlib

/-!
Verification of the pyMicroeconomics equilibrium solver specification.

The repository ships the example notebook `src/examples/example.ipynb`,
whose recorded outputs document the solver's behaviour on the linear
demand/supply family: demand `q = a - b*p`, supply `q = c + d*p`,
equilibrium price `(a - c)/(b + d)`, equilibrium quantity
`(a*d + b*c)/(b + d)`, consumer surplus `(a*d + b*c)^2/(2*b*(b + d)^2)`,
producer surplus `(a*d + b*c)^2/(2*d*(b + d)^2)`, total surplus
`(a*d + b*c)^2/(2*b*d*(b + d))`, and inverse demand `p = (a - q)/b`.
The Python module implementing `market_equilibrium` itself is not part of
the shipped sources, so the solver pipeline is modelled from the spec
(symbolic simultaneous-equation solving, root selection by sign, surplus
by definite integration) and checked against the recorded outputs.

Symbolic expressions in the parameters `a b c d` are embedded as functions
of those parameters over a field; two symbolic expressions are equal when
they agree at every instantiation where the denominators are nonzero.
-/

namespace PyMicroeconomics

section Symbolic

variable {K : Type*} [Field K]

/-- Linear demand curve `q = a - b*p`, as recorded in the notebook
("Demand Equation: q = a - b p"). -/
def linear_demand (a b p : K) : K := a - b * p

/-- Linear supply curve `q = c + d*p`, as recorded in the notebook
("Supply Equation: q = c + d p"). -/
def linear_supply (c d p : K) : K := c + d * p

/-- Inverse demand `p = (a - q)/b`, as recorded in the notebook
("Inverse Demand Function: p = (a - q)/b"). -/
def inverse_demand (a b q : K) : K := (a - q) / b

/-- Inverse supply `p = (q - c)/d`, obtained from `q = c + d*p`
symmetrically to the recorded inverse demand. -/
def inverse_supply (c d q : K) : K := (q - c) / d

/-- Modelled from the spec: the symbolic algebra engine's root of the
linear equation `coef * p = rhs`, the form to which `demand(p) = supply(p)`
reduces for the linear family (spec 4.2 "symbolic simultaneous-equation
solving", delegated to the external engine per spec 6). -/
def solve_linear_root (coef rhs : K) : K := rhs / coef

/-- Modelled from the spec: equilibrium price, the root of
`a - b*p = c + d*p`, i.e. of `(b + d) * p = a - c` (spec 4.2: "solve
demand(p) = supply(p) for price"). -/
def equilibrium_price (a b c d : K) : K := solve_linear_root (b + d) (a - c)

/-- Modelled from the spec: equilibrium quantity, obtained by substituting
the equilibrium price into the demand curve (spec 4.2: "then substitute to
get quantity"). -/
def equilibrium_quantity (a b c d : K) : K :=
  linear_demand a b (equilibrium_price a b c d)

/-- Modelled from the spec: the symbolic engine's closed form of the
definite integral of the linear integrand `q ↦ f0 + f1 * q` over
`[0, Q]` (spec 4.2 delegates integration to the external algebra engine). -/
def linear_integral (f0 f1 Q : K) : K := f0 * Q + f1 * Q ^ 2 / 2

/-- Modelled from the spec: consumer surplus, "the definite integral of
inverse demand minus equilibrium price, over quantity from 0 to equilibrium
quantity" (spec 4.2).  The integrand `(a - q)/b - p*` is the linear
function of `q` with constant coefficient `inverse_demand a b 0 - p*`
and slope `-(1/b)`. -/
def consumer_surplus (a b c d : K) : K :=
  linear_integral (inverse_demand a b 0 - equilibrium_price a b c d)
    (-(1 / b)) (equilibrium_quantity a b c d)

/-- Modelled from the spec: producer surplus, computed "symmetrically using
inverse supply" (spec 4.2): the definite integral of equilibrium price
minus inverse supply, over quantity from 0 to equilibrium quantity.  The
integrand `p* - (q - c)/d` has constant coefficient
`p* - inverse_supply c d 0` and slope `-(1/d)`. -/
def producer_surplus (a b c d : K) : K :=
  linear_integral (equilibrium_price a b c d - inverse_supply c d 0)
    (-(1 / d)) (equilibrium_quantity a b c d)

/-- Modelled from the spec: total surplus is the sum of consumer and
producer surplus (spec 4.2: "total surplus = sum"). -/
def total_surplus (a b c d : K) : K :=
  consumer_surplus a b c d + producer_surplus a b c d

/-- The immutable result bundle of an equilibrium computation (spec 3:
"Equilibrium: derived, immutable result bundling" the five expressions). -/
structure MarketEquilibrium (K : Type*) where
  price : K
  quantity : K
  consumer_surplus : K
  producer_surplus : K
  total_surplus : K
deriving DecidableEq

/-- Modelled from the spec: `market_equilibrium` on the linear family with
symbolic parameters, bundling the five symbolic results (spec 2 and the
notebook call `pm.market_equilibrium(demand, supply)`). -/
def market_equilibrium (a b c d : K) : MarketEquilibrium K :=
  { price := equilibrium_price a b c d
    quantity := equilibrium_quantity a b c d
    consumer_surplus := consumer_surplus a b c d
    producer_surplus := producer_surplus a b c d
    total_surplus := total_surplus a b c d }

end Symbolic

/-- The error kinds of the solver (spec 7): `InvalidParameterError`
(bad/out-of-domain input), `AmbiguousEquilibriumError` (zero or multiple
valid roots), `UnsolvableError` (no closed form). -/
inductive SolveError where
  | InvalidParameterError : SolveError
  | AmbiguousEquilibriumError : SolveError
  | UnsolvableError : SolveError
deriving DecidableEq

/-- A candidate equilibrium root: a price together with the quantity
obtained by substituting it into the demand curve. -/
structure Root where
  price : ℚ
  quantity : ℚ
deriving DecidableEq

/-- Modelled from the spec: the root-selection predicate of the
equilibrium engine, "both price ≥ 0 and quantity ≥ 0" (spec 4.2). -/
def qualifies (r : Root) : Bool :=
  decide (0 ≤ r.price) && decide (0 ≤ r.quantity)

/-- Modelled from the spec: "select the unique solution ...; if none or
more than one qualifies, fail with AmbiguousEquilibriumError" (spec 4.2),
applied to the already-filtered list of qualifying roots. -/
def choose_root (l : List Root) : Except SolveError Root :=
  match l with
  | [r] => Except.ok r
  | _ => Except.error SolveError.AmbiguousEquilibriumError

/-- The candidate roots built from the solution list returned by the
symbolic algebra engine: each solution price paired with the quantity
obtained by substitution into the demand curve (spec 4.2: "then substitute
to get quantity"). -/
def candidate_roots (demand : ℚ → ℚ) (sols : List ℚ) : List Root :=
  sols.map (fun p => Root.mk p (demand p))

/-- Modelled from the spec: the numeric-path equilibrium engine.  The
simultaneous-equation solving itself is delegated to the external symbolic
algebra engine (spec 6), whose output is the solution list `sols`; the
engine then substitutes to get quantities and applies the sign-based
root-selection policy (spec 4.2). -/
def solve_equilibrium (demand : ℚ → ℚ) (sols : List ℚ) : Except SolveError Root :=
  choose_root ((candidate_roots demand sols).filter qualifies)

/-- Modelled from the spec: the engine's solution list for the linear
equation `a - b*p = c + d*p`, i.e. `(b + d)*p = a - c`: a single root when
`b + d ≠ 0`, and no isolated root in the degenerate case `b + d = 0`
(the equation is then either unsatisfiable or trivial). -/
def linear_solutions (a b c d : ℚ) : List ℚ :=
  if b + d = 0 then [] else [equilibrium_price a b c d]

/-- Modelled from the spec: the numeric-path computation on the linear
family, with curve-factory domain validation first (spec 4.1: parameters
violating domain constraints, such as a negative slope coefficient, raise
InvalidParameterError) and root selection afterwards (spec 4.2). -/
def market_equilibrium_checked (a b c d : ℚ) : Except SolveError Root :=
  if b < 0 ∨ d < 0 then Except.error SolveError.InvalidParameterError
  else solve_equilibrium (linear_demand a b) (linear_solutions a b c d)

/-- Modelled from the spec and the recorded notebook run: the symbolic
path of `market_equilibrium`.  With fully symbolic parameters the sign of
the root is undecidable, so the solver keeps the symbolic root and raises
no error (the notebook records the symbolic price and quantity outputs of
`pm.market_equilibrium` with no exception). -/
def market_equilibrium_symbolic (a b c d : ℚ) :
    Except SolveError (MarketEquilibrium ℚ) :=
  Except.ok (market_equilibrium a b c d)

end PyMicroeconomics

namespace PyMicroeconomics

/-- Helper: the closed form of the equilibrium quantity. -/
lemma equilibrium_quantity_closed (a b c d : ℚ) (h : b + d ≠ 0) :
    equilibrium_quantity a b c d = (a * d + b * c) / (b + d) := by
  unfold equilibrium_quantity linear_demand equilibrium_price solve_linear_root
  field_simp
  ring

/-- C1: for every linear demand `q = a - b*p` and linear supply
`q = c + d*p` with `b + d` nonzero, `market_equilibrium` returns
equilibrium price `(a - c)/(b + d)` and equilibrium quantity
`(a*d + b*c)/(b + d)` (the notebook-recorded outputs). -/
theorem market_equilibrium_price_quantity (a b c d : ℚ) (h : b + d ≠ 0) :
    (market_equilibrium a b c d).price = (a - c) / (b + d) ∧
    (market_equilibrium a b c d).quantity = (a * d + b * c) / (b + d) := by
  exact ⟨rfl, equilibrium_quantity_closed a b c d h⟩

theorem market_equilibrium_price_quantity_witness :
    (market_equilibrium (10 : ℚ) 1 0 1).price = (10 - 0) / (1 + 1) ∧
    (market_equilibrium (10 : ℚ) 1 0 1).quantity = (10 * 1 + 1 * 0) / (1 + 1) :=
  market_equilibrium_price_quantity 10 1 0 1 (by norm_num)

/-- C2: the returned equilibrium satisfies both curve equations
simultaneously, `q* = demand(p*)` and `q* = supply(p*)`, and in the linear
case substituting `p* = (a-c)/(b+d)` into either curve yields
`(a*d + b*c)/(b + d)`. -/
theorem equilibrium_satisfies_both_curves (a b c d : ℚ) (h : b + d ≠ 0) :
    (market_equilibrium a b c d).quantity =
      linear_demand a b (market_equilibrium a b c d).price ∧
    (market_equilibrium a b c d).quantity =
      linear_supply c d (market_equilibrium a b c d).price ∧
    linear_demand a b (market_equilibrium a b c d).price =
      (a * d + b * c) / (b + d) ∧
    linear_supply c d (market_equilibrium a b c d).price =
      (a * d + b * c) / (b + d) := by
  have hd : linear_demand a b (market_equilibrium a b c d).price =
      (a * d + b * c) / (b + d) := equilibrium_quantity_closed a b c d h
  have hs : linear_supply c d (market_equilibrium a b c d).price =
      (a * d + b * c) / (b + d) := by
    show linear_supply c d (equilibrium_price a b c d) = _
    unfold linear_supply equilibrium_price solve_linear_root
    field_simp
    ring
  exact ⟨rfl, hd.trans hs.symm, hd, hs⟩

theorem equilibrium_satisfies_both_curves_witness :
    (market_equilibrium (10 : ℚ) 1 0 1).quantity =
      linear_demand 10 1 (market_equilibrium (10 : ℚ) 1 0 1).price ∧
    (market_equilibrium (10 : ℚ) 1 0 1).quantity =
      linear_supply 0 1 (market_equilibrium (10 : ℚ) 1 0 1).price ∧
    linear_demand 10 1 (market_equilibrium (10 : ℚ) 1 0 1).price =
      (10 * 1 + 1 * 0) / (1 + 1) ∧
    linear_supply 0 1 (market_equilibrium (10 : ℚ) 1 0 1).price =
      (10 * 1 + 1 * 0) / (1 + 1) :=
  equilibrium_satisfies_both_curves 10 1 0 1 (by norm_num)

/-- C6: with the numeric parameters `a = 10, b = 1, c = 0, d = 1` the
computed equilibrium price and quantity are both exactly `5`, in exact
rational arithmetic. -/
theorem numeric_example_price_quantity :
    (market_equilibrium (10 : ℚ) 1 0 1).price = 5 ∧
    (market_equilibrium (10 : ℚ) 1 0 1).quantity = 5 := by
  constructor <;>
    norm_num [market_equilibrium, equilibrium_price, equilibrium_quantity,
      linear_demand, solve_linear_root]

/-- C3: for the linear family with `b`, `d` and `b + d` nonzero, the solver
returns consumer surplus `(a*d + b*c)^2 / (2*b*(b+d)^2)` and producer
surplus `(a*d + b*c)^2 / (2*d*(b+d)^2)` (the notebook-recorded outputs),
as an identity of symbolic expressions in `a, b, c, d`. -/
theorem surplus_closed_forms (a b c d : ℚ) (hb : b ≠ 0) (hd : d ≠ 0)
    (hbd : b + d ≠ 0) :
    (market_equilibrium a b c d).consumer_surplus =
      (a * d + b * c) ^ 2 / (2 * b * (b + d) ^ 2) ∧
    (market_equilibrium a b c d).producer_surplus =
      (a * d + b * c) ^ 2 / (2 * d * (b + d) ^ 2) := by
  constructor
  · show consumer_surplus a b c d = _
    unfold consumer_surplus linear_integral inverse_demand equilibrium_quantity
      equilibrium_price linear_demand solve_linear_root
    field_simp
    ring
  · show producer_surplus a b c d = _
    unfold producer_surplus linear_integral inverse_supply equilibrium_quantity
      equilibrium_price linear_demand solve_linear_root
    field_simp
    ring

theorem surplus_closed_forms_witness :
    (market_equilibrium (10 : ℚ) 1 0 1).consumer_surplus =
      (10 * 1 + 1 * 0) ^ 2 / (2 * 1 * (1 + 1) ^ 2) ∧
    (market_equilibrium (10 : ℚ) 1 0 1).producer_surplus =
      (10 * 1 + 1 * 0) ^ 2 / (2 * 1 * (1 + 1) ^ 2) :=
  surplus_closed_forms 10 1 0 1 (by norm_num) (by norm_num) (by norm_num)

/-- C4: the returned total surplus is the sum of the returned consumer and
producer surplus, and for all rationals `a, b, c, d` with `b`, `d`, `b + d`
nonzero the closed forms satisfy
`(a*d+b*c)^2/(2b(b+d)^2) + (a*d+b*c)^2/(2d(b+d)^2) = (a*d+b*c)^2/(2bd(b+d))`. -/
theorem total_surplus_is_sum (a b c d : ℚ) (hb : b ≠ 0) (hd : d ≠ 0)
    (hbd : b + d ≠ 0) :
    (market_equilibrium a b c d).total_surplus =
      (market_equilibrium a b c d).consumer_surplus +
        (market_equilibrium a b c d).producer_surplus ∧
    (a * d + b * c) ^ 2 / (2 * b * (b + d) ^ 2) +
        (a * d + b * c) ^ 2 / (2 * d * (b + d) ^ 2) =
      (a * d + b * c) ^ 2 / (2 * b * d * (b + d)) := by
  refine ⟨rfl, ?_⟩
  field_simp
  ring

theorem total_surplus_is_sum_witness :
    (market_equilibrium (10 : ℚ) 1 0 1).total_surplus =
      (market_equilibrium (10 : ℚ) 1 0 1).consumer_surplus +
        (market_equilibrium (10 : ℚ) 1 0 1).producer_surplus ∧
    (10 * 1 + 1 * 0 : ℚ) ^ 2 / (2 * 1 * (1 + 1) ^ 2) +
        (10 * 1 + 1 * 0) ^ 2 / (2 * 1 * (1 + 1) ^ 2) =
      (10 * 1 + 1 * 0) ^ 2 / (2 * 1 * 1 * (1 + 1)) :=
  total_surplus_is_sum 10 1 0 1 (by norm_num) (by norm_num) (by norm_num)

/-- C9: the equilibrium computation is deterministic and idempotent: two
runs of `market_equilibrium` on identical demand and supply inputs return
results identical in every field (price, quantity, consumer surplus,
producer surplus, total surplus).  The computation is a pure, stateless
function of its inputs. -/
theorem market_equilibrium_deterministic (a b c d a1 b1 c1 d1 : ℚ)
    (ha : a = a1) (hb : b = b1) (hc : c = c1) (hd : d = d1) :
    (market_equilibrium a b c d).price = (market_equilibrium a1 b1 c1 d1).price ∧
    (market_equilibrium a b c d).quantity = (market_equilibrium a1 b1 c1 d1).quantity ∧
    (market_equilibrium a b c d).consumer_surplus =
      (market_equilibrium a1 b1 c1 d1).consumer_surplus ∧
    (market_equilibrium a b c d).producer_surplus =
      (market_equilibrium a1 b1 c1 d1).producer_surplus ∧
    (market_equilibrium a b c d).total_surplus =
      (market_equilibrium a1 b1 c1 d1).total_surplus := by
  subst ha hb hc hd
  exact ⟨rfl, rfl, rfl, rfl, rfl⟩

theorem market_equilibrium_deterministic_witness :
    (market_equilibrium (10 : ℚ) 1 0 1).price = (market_equilibrium (10 : ℚ) 1 0 1).price ∧
    (market_equilibrium (10 : ℚ) 1 0 1).quantity = (market_equilibrium (10 : ℚ) 1 0 1).quantity ∧
    (market_equilibrium (10 : ℚ) 1 0 1).consumer_surplus =
      (market_equilibrium (10 : ℚ) 1 0 1).consumer_surplus ∧
    (market_equilibrium (10 : ℚ) 1 0 1).producer_surplus =
      (market_equilibrium (10 : ℚ) 1 0 1).producer_surplus ∧
    (market_equilibrium (10 : ℚ) 1 0 1).total_surplus =
      (market_equilibrium (10 : ℚ) 1 0 1).total_surplus :=
  market_equilibrium_deterministic 10 1 0 1 10 1 0 1 rfl rfl rfl rfl

/-- Helper: the selection predicate in propositional form. -/
lemma qualifies_iff (r : Root) :
    qualifies r = true ↔ 0 ≤ r.price ∧ 0 ≤ r.quantity := by
  simp [qualifies]

/-- Helper: when the filtered list is not a singleton the selection step
fails with `AmbiguousEquilibriumError`. -/
lemma choose_root_eq_error (l : List Root) (h : l.length ≠ 1) :
    choose_root l = Except.error SolveError.AmbiguousEquilibriumError := by
  match l with
  | [] => rfl
  | [r] => simp at h
  | r1 :: r2 :: t => rfl

/-- Helper: if no solution qualifies, the filtered candidate list is empty. -/
lemma candidate_filter_eq_nil (demand : ℚ → ℚ) (sols : List ℚ)
    (h : ∀ p ∈ sols, ¬(0 ≤ p ∧ 0 ≤ demand p)) :
    (candidate_roots demand sols).filter qualifies = [] := by
  rw [List.filter_eq_nil_iff]
  intro r hr
  obtain ⟨p, hp, rfl⟩ := List.mem_map.mp hr
  intro hqual
  exact h p hp ((qualifies_iff _).mp hqual)

/-- Helper: a unique qualifying solution yields a singleton filtered list. -/
lemma candidate_filter_eq_singleton (demand : ℚ → ℚ) (sols : List ℚ) (p : ℚ)
    (hnd : sols.Nodup) (hp : p ∈ sols) (hq : 0 ≤ p ∧ 0 ≤ demand p)
    (huniq : ∀ q ∈ sols, 0 ≤ q ∧ 0 ≤ demand q → q = p) :
    (candidate_roots demand sols).filter qualifies = [Root.mk p (demand p)] := by
  induction sols with
  | nil => cases hp
  | cons x t ih =>
    obtain ⟨hxt, hndt⟩ := List.nodup_cons.mp hnd
    have hcons : candidate_roots demand (x :: t) =
        Root.mk x (demand x) :: candidate_roots demand t := rfl
    rcases List.mem_cons.mp hp with hpx | hpt
    · subst hpx
      have hrest : (candidate_roots demand t).filter qualifies = [] := by
        apply candidate_filter_eq_nil
        intro q hqt hqq
        exact hxt (huniq q (List.mem_cons_of_mem p hqt) hqq ▸ hqt)
      have hqp : qualifies (Root.mk p (demand p)) = true :=
        (qualifies_iff _).mpr hq
      rw [hcons, List.filter_cons_of_pos hqp, hrest]
    · have hnx : ¬ qualifies (Root.mk x (demand x)) = true := by
        rw [qualifies_iff]
        intro hxq
        refine hxt ?_
        rw [huniq x (List.mem_cons_self x t) hxq]
        exact hpt
      rw [hcons, List.filter_cons_of_neg hnx]
      exact ih hndt hpt (fun q hqt hqq => huniq q (List.mem_cons_of_mem x hqt) hqq)

/-- C7: for every demand/supply pair, with the (duplicate-free) solution
list of `demand(p) = supply(p)` produced by the algebra engine: if no
solution has price ≥ 0 and quantity ≥ 0, or two distinct solutions do, the
engine fails with `AmbiguousEquilibriumError`; if exactly one solution
qualifies, that solution is the one returned. -/
theorem solve_equilibrium_selection (demand supply : ℚ → ℚ) (sols : List ℚ)
    (hnd : sols.Nodup) (hsols : ∀ p ∈ sols, demand p = supply p) :
    ((¬ ∃ p ∈ sols, 0 ≤ p ∧ 0 ≤ demand p) →
      solve_equilibrium demand sols =
        Except.error SolveError.AmbiguousEquilibriumError) ∧
    ((∃ p ∈ sols, ∃ q ∈ sols, p ≠ q ∧
        (0 ≤ p ∧ 0 ≤ demand p) ∧ (0 ≤ q ∧ 0 ≤ demand q)) →
      solve_equilibrium demand sols =
        Except.error SolveError.AmbiguousEquilibriumError) ∧
    (∀ p ∈ sols, (0 ≤ p ∧ 0 ≤ demand p) →
      (∀ q ∈ sols, (0 ≤ q ∧ 0 ≤ demand q) → q = p) →
      solve_equilibrium demand sols = Except.ok (Root.mk p (demand p)) ∧
        demand p = supply p) := by
  refine ⟨?_, ?_, ?_⟩
  · intro hnone
    show choose_root _ = _
    rw [candidate_filter_eq_nil demand sols (fun p hp hq => hnone ⟨p, hp, hq⟩)]
    rfl
  · rintro ⟨p, hp, q, hq, hpq, hqp, hqq⟩
    apply choose_root_eq_error
    intro hlen
    obtain ⟨r, hr⟩ := List.length_eq_one.mp hlen
    have hpm : Root.mk p (demand p) ∈
        (candidate_roots demand sols).filter qualifies :=
      List.mem_filter.mpr
        ⟨List.mem_map.mpr ⟨p, hp, rfl⟩, (qualifies_iff _).mpr hqp⟩
    have hqm : Root.mk q (demand q) ∈
        (candidate_roots demand sols).filter qualifies :=
      List.mem_filter.mpr
        ⟨List.mem_map.mpr ⟨q, hq, rfl⟩, (qualifies_iff _).mpr hqq⟩
    rw [hr, List.mem_singleton] at hpm hqm
    have : Root.mk p (demand p) = Root.mk q (demand q) := hpm.trans hqm.symm
    exact hpq (congrArg Root.price this)
  · intro p hp hq huniq
    refine ⟨?_, hsols p hp⟩
    show choose_root _ = _
    rw [candidate_filter_eq_singleton demand sols p hnd hp hq huniq]
    rfl

theorem solve_equilibrium_selection_witness :
    solve_equilibrium (fun p => 10 - p) [(5 : ℚ)] =
        Except.ok (Root.mk 5 ((fun p : ℚ => 10 - p) 5)) ∧
      (fun p : ℚ => 10 - p) 5 = (fun p : ℚ => p) 5 :=
  (solve_equilibrium_selection (fun p => 10 - p) (fun p => p) [(5 : ℚ)]
      (List.nodup_singleton 5)
      (by intro p hp; rw [List.mem_singleton] at hp; subst hp; norm_num)).2.2
    5 (List.mem_singleton.mpr rfl) ⟨by norm_num, by norm_num⟩
    (fun q hq _ => List.mem_singleton.mp hq)

/-- C8: for every parameter combination with a negative slope coefficient
or a zero denominator (`b + d = 0`) in the linear case, the checked
computation fails with `InvalidParameterError` or
`AmbiguousEquilibriumError` instead of returning a value. -/
theorem checked_rejects_bad_parameters (a b c d : ℚ)
    (h : b < 0 ∨ d < 0 ∨ b + d = 0) :
    market_equilibrium_checked a b c d =
        Except.error SolveError.InvalidParameterError ∨
    market_equilibrium_checked a b c d =
        Except.error SolveError.AmbiguousEquilibriumError := by
  by_cases hneg : b < 0 ∨ d < 0
  · left
    simp [market_equilibrium_checked, hneg]
  · right
    have hbd : b + d = 0 := by tauto
    have hnil : linear_solutions a b c d = [] := by
      simp [linear_solutions, hbd]
    simp [market_equilibrium_checked, hneg, hnil, solve_equilibrium,
      candidate_roots, choose_root]

theorem checked_rejects_bad_parameters_witness :
    market_equilibrium_checked 0 (-1) 0 1 =
        Except.error SolveError.InvalidParameterError ∨
    market_equilibrium_checked 0 (-1) 0 1 =
        Except.error SolveError.AmbiguousEquilibriumError :=
  checked_rejects_bad_parameters 0 (-1) 0 1 (Or.inl (by norm_num))

/-- C10: with fully symbolic parameters (no overrides), the symbolic path
returns the symbolic root — price `(a-c)/(b+d)`, quantity
`(a*d+b*c)/(b+d)` — and raises no error: the positivity root-selection
check is not enforced for symbolic parameters (it holds in particular at
instantiations where the root is negative). -/
theorem symbolic_path_returns_root (a b c d : ℚ) (h : b + d ≠ 0) :
    ∃ r, market_equilibrium_symbolic a b c d = Except.ok r ∧
      r.price = (a - c) / (b + d) ∧
      r.quantity = (a * d + b * c) / (b + d) :=
  ⟨market_equilibrium a b c d, rfl, rfl, equilibrium_quantity_closed a b c d h⟩

theorem symbolic_path_returns_root_witness :
    ∃ r, market_equilibrium_symbolic 0 1 10 1 = Except.ok r ∧
      r.price = ((0 : ℚ) - 10) / (1 + 1) ∧
      r.quantity = ((0 : ℚ) * 1 + 1 * 10) / (1 + 1) :=
  symbolic_path_returns_root 0 1 10 1 (by norm_num)

/-- Helper: the engine's closed form `linear_integral` agrees with the
real definite integral of the linear integrand over `[0, Q]`. -/
lemma integral_linear_eq (f0 f1 Q : ℝ) :
    (∫ q in (0:ℝ)..Q, (f0 + f1 * q)) = linear_integral f0 f1 Q := by
  have h1 : IntervalIntegrable (fun _ : ℝ => f0) MeasureTheory.volume 0 Q :=
    intervalIntegrable_const
  have h2 : IntervalIntegrable (fun q : ℝ => f1 * q) MeasureTheory.volume 0 Q :=
    (continuous_const.mul continuous_id).intervalIntegrable 0 Q
  rw [intervalIntegral.integral_add h1 h2, intervalIntegral.integral_const,
    intervalIntegral.integral_const_mul, integral_id]
  unfold linear_integral
  simp only [smul_eq_mul]
  ring

/-- C5: refinement — for the linear family (with `b`, `d`, `b + d`
nonzero), the integral-based definitions of the surpluses coincide with
the closed forms the solver returns: consumer surplus equals the definite
integral from `0` to the equilibrium quantity of inverse demand minus
equilibrium price, and producer surplus equals the corresponding integral
using inverse supply. -/
theorem surplus_integral_refinement (a b c d : ℝ) (hb : b ≠ 0) (hd : d ≠ 0)
    (hbd : b + d ≠ 0) :
    (∫ q in (0:ℝ)..(equilibrium_quantity a b c d),
        (inverse_demand a b q - equilibrium_price a b c d)) =
      consumer_surplus a b c d ∧
    (∫ q in (0:ℝ)..(equilibrium_quantity a b c d),
        (equilibrium_price a b c d - inverse_supply c d q)) =
      producer_surplus a b c d := by
  constructor
  · have hfun : (fun q : ℝ => inverse_demand a b q - equilibrium_price a b c d) =
        fun q : ℝ =>
          (inverse_demand a b 0 - equilibrium_price a b c d) + -(1 / b) * q := by
      funext q
      unfold inverse_demand
      ring
    rw [hfun, integral_linear_eq]
    rfl
  · have hfun : (fun q : ℝ => equilibrium_price a b c d - inverse_supply c d q) =
        fun q : ℝ =>
          (equilibrium_price a b c d - inverse_supply c d 0) + -(1 / d) * q := by
      funext q
      unfold inverse_supply
      ring
    rw [hfun, integral_linear_eq]
    rfl

theorem surplus_integral_refinement_witness :
    (∫ q in (0:ℝ)..(equilibrium_quantity 10 1 0 1),
        (inverse_demand 10 1 q - equilibrium_price 10 1 0 1)) =
      consumer_surplus (10:ℝ) 1 0 1 ∧
    (∫ q in (0:ℝ)..(equilibrium_quantity 10 1 0 1),
        (equilibrium_price 10 1 0 1 - inverse_supply 0 1 q)) =
      producer_surplus (10:ℝ) 1 0 1 :=
  surplus_integral_refinement 10 1 0 1 (by norm_num) (by norm_num) (by norm_num)

end PyMicroeconomics
